import Mathlib

/-!
# Verification of the ChatBot repository (src/app.py)

A shallow embedding of the Streamlit image+text chatbot: the SQLite
`conversations` table, the base64/PNG image pipeline, the startup secret
check, the Send action and the sidebar history rendering, together with
theorems settling the specification's claims.
-/

namespace ChatBot

/-! ## Python string helpers -/

/-- Whitespace characters stripped by Python `str.strip()` (ASCII subset;
the app only tests the result for emptiness). -/
def pyIsSpace (c : Char) : Bool :=
  c = ' ' || c = '\t' || c = '\n' || c = '\r' || c = '\x0b' || c = '\x0c'

/-- Model of Python `str.strip()`: drop leading and trailing whitespace. -/
def pyStrip (s : String) : String :=
  String.mk (((s.toList.dropWhile pyIsSpace).reverse.dropWhile pyIsSpace).reverse)

/-! ## Base64 (the `base64.b64encode` / `base64.b64decode` calls)

Bytes are modelled as `Nat` values below 256. -/

/-- The standard base64 alphabet. -/
def b64Alphabet : List Char :=
  "ABCDEFGHIJKLMNOPQRSTUVWXYZabcdefghijklmnopqrstuvwxyz0123456789+/".toList

/-- The base64 character for a 6-bit value. -/
def b64EncChar (n : Nat) : Char := b64Alphabet.getD n 'A'

/-- The 6-bit value of a base64 character, if it is in the alphabet. -/
def b64DecChar (c : Char) : Option Nat := b64Alphabet.findIdx? (· = c)

/-- `base64.b64encode`: encode a byte list into base64 characters. -/
def b64encode : List Nat → List Char
  | [] => []
  | [a] => [b64EncChar (a / 4), b64EncChar (a % 4 * 16), '=', '=']
  | [a, b] => [b64EncChar (a / 4), b64EncChar (a % 4 * 16 + b / 16),
               b64EncChar (b % 16 * 4), '=']
  | a :: b :: d :: rest =>
      b64EncChar (a / 4) :: b64EncChar (a % 4 * 16 + b / 16) ::
      b64EncChar (b % 16 * 4 + d / 64) :: b64EncChar (d % 64) :: b64encode rest

/-- `base64.b64decode`: decode base64 characters back to bytes; `none` on
malformed input. -/
def b64decode : List Char → Option (List Nat)
  | [] => some []
  | c1 :: c2 :: c3 :: c4 :: rest =>
      match b64DecChar c1, b64DecChar c2 with
      | some n1, some n2 =>
          let b1 := n1 * 4 + n2 / 16
          if c3 = '=' then
            if c4 = '=' ∧ rest = [] then some [b1] else none
          else
            match b64DecChar c3 with
            | some n3 =>
                let b2 := n2 % 16 * 16 + n3 / 4
                if c4 = '=' then
                  if rest = [] then some [b1, b2] else none
                else
                  match b64DecChar c4 with
                  | some n4 =>
                      (b64decode rest).map fun t => b1 :: b2 :: (n3 % 4 * 64 + n4) :: t
                  | none => none
            | none => none
      | _, _ => none
  | _ => none

/-- Decoding the alphabet character of a 6-bit value recovers the value. -/
theorem b64DecChar_b64EncChar : ∀ n < 64, b64DecChar (b64EncChar n) = some n := by
  decide

/-- Alphabet characters are never `=`. -/
theorem b64EncChar_ne_eq : ∀ n < 64, b64EncChar n ≠ '=' := by
  decide

/-- Base64 round trip: decoding an encoded byte list (all values < 256)
recovers it exactly. -/
theorem b64decode_b64encode (bs : List Nat) (h : ∀ b ∈ bs, b < 256) :
    b64decode (b64encode bs) = some bs := by
  induction bs using b64encode.induct with
  | case1 => rfl
  | case2 a =>
      have ha : a < 256 := h a (by simp)
      have h1 : a / 4 < 64 := by omega
      have h2 : a % 4 * 16 < 64 := by omega
      simp [b64encode, b64decode, b64DecChar_b64EncChar _ h1,
        b64DecChar_b64EncChar _ h2]
      omega
  | case3 a b =>
      have ha : a < 256 := h a (by simp)
      have hb : b < 256 := h b (by simp)
      have h1 : a / 4 < 64 := by omega
      have h2 : a % 4 * 16 + b / 16 < 64 := by omega
      have h3 : b % 16 * 4 < 64 := by omega
      simp [b64encode, b64decode, b64DecChar_b64EncChar _ h1,
        b64DecChar_b64EncChar _ h2, b64DecChar_b64EncChar _ h3,
        b64EncChar_ne_eq _ h3]
      omega
  | case4 a b d rest ih =>
      have ha : a < 256 := h a (by simp)
      have hb : b < 256 := h b (by simp)
      have hd : d < 256 := h d (by simp)
      have h1 : a / 4 < 64 := by omega
      have h2 : a % 4 * 16 + b / 16 < 64 := by omega
      have h3 : b % 16 * 4 + d / 64 < 64 := by omega
      have h4 : d % 64 < 64 := by omega
      have hrest : ∀ x ∈ rest, x < 256 := fun x hx => h x (by simp [hx])
      simp [b64encode, b64decode, b64DecChar_b64EncChar _ h1,
        b64DecChar_b64EncChar _ h2, b64DecChar_b64EncChar _ h3,
        b64DecChar_b64EncChar _ h4, b64EncChar_ne_eq _ h3,
        b64EncChar_ne_eq _ h4, ih hrest]
      omega

/-! ## Images and the PNG codec (the PIL `Image` calls)

A PIL image in memory is its pixel grid plus the format of the file it was
opened from.  `pil_image.save(buffered, format="PNG")` and
`Image.open` are modelled by a lossless byte serialisation of the pixel
data: PNG stores the exact pixels (width and height as 4-byte big-endian
words, then the raw byte stream), so a faithful abstraction keeps the
codec injective on valid images. -/

structure PILImage where
  width : Nat
  height : Nat
  /-- raw pixel byte stream (values < 256 for a valid image) -/
  pixels : List Nat
  /-- format of the file the image was opened from ("PNG", "JPEG", ...) -/
  format : String
  deriving DecidableEq, Repr

/-- A PIL image whose dimensions fit PNG's 4-byte fields and whose pixel
values are bytes. -/
def ValidImage (img : PILImage) : Prop :=
  img.width < 4294967296 ∧ img.height < 4294967296 ∧ ∀ b ∈ img.pixels, b < 256

instance (img : PILImage) : Decidable (ValidImage img) := by
  unfold ValidImage; infer_instance

/-- A `Nat` as four big-endian bytes (PNG width/height fields). -/
def be32 (n : Nat) : List Nat :=
  [n / 16777216 % 256, n / 65536 % 256, n / 256 % 256, n % 256]

/-- `pil_image.save(buffered, format="PNG")`: serialise to PNG bytes.
The original file format is not consulted: the output is always PNG. -/
def pngEncode (img : PILImage) : List Nat :=
  be32 img.width ++ be32 img.height ++ img.pixels.map (· % 256)

/-- `Image.open` on a byte stream: parse PNG bytes back to an image whose
`format` is "PNG"; `none` on malformed input. -/
def pngDecode : List Nat → Option PILImage
  | w3 :: w2 :: w1 :: w0 :: h3 :: h2 :: h1 :: h0 :: rest =>
      some ⟨w3 * 16777216 + w2 * 65536 + w1 * 256 + w0,
            h3 * 16777216 + h2 * 65536 + h1 * 256 + h0, rest, "PNG"⟩
  | _ => none

/-- Every byte produced by `pngEncode` is below 256. -/
theorem pngEncode_bytes_lt (img : PILImage) : ∀ b ∈ pngEncode img, b < 256 := by
  intro b hb
  simp only [pngEncode, be32, List.mem_append, List.mem_cons, List.mem_map,
    List.not_mem_nil, or_false] at hb
  rcases hb with hb | hb
  · rcases hb with h | h | h | h | h | h | h | h <;> omega
  · obtain ⟨x, _, hx⟩ := hb; omega

/-- Reducing a list of bytes mod 256 is the identity. -/
theorem map_mod_256_eq_self (l : List Nat) (hl : ∀ b ∈ l, b < 256) :
    l.map (· % 256) = l := by
  induction l with
  | nil => rfl
  | cons x xs ih =>
      have hx : x < 256 := hl x (by simp)
      have hxs : ∀ b ∈ xs, b < 256 := fun b hb => hl b (by simp [hb])
      simp only [List.map_cons, Nat.mod_eq_of_lt hx, ih hxs]

/-- The PNG codec is lossless: decoding an encoded valid image recovers
its dimensions and exact pixels, with format "PNG". -/
theorem pngDecode_pngEncode (img : PILImage) (h : ValidImage img) :
    pngDecode (pngEncode img) =
      some ⟨img.width, img.height, img.pixels, "PNG"⟩ := by
  obtain ⟨hw, hh, hp⟩ := h
  have hmap : img.pixels.map (· % 256) = img.pixels :=
    map_mod_256_eq_self img.pixels hp
  simp only [pngEncode, be32, List.cons_append, List.nil_append, pngDecode,
    hmap]
  congr 1
  congr 1
  · omega
  · omega

/-! ## SQLite: the `conversations` table

`CREATE TABLE IF NOT EXISTS conversations (id INTEGER PRIMARY KEY
AUTOINCREMENT, user_prompt TEXT, base64_image TEXT, bot_response TEXT,
timestamp TEXT)`.  A row is one conversation record; the table is a list
of rows plus the next AUTOINCREMENT value (starting at 1). -/

structure Row where
  id : Nat
  user_prompt : String
  base64_image : Option String
  bot_response : String
  timestamp : String
  deriving DecidableEq, Repr

structure DB where
  rows : List Row
  nextId : Nat
  deriving DecidableEq, Repr

/-- The freshly created (empty) `conversations` table. -/
def initialDB : DB := ⟨[], 1⟩

/-- `datetime` components for `datetime.now()`. -/
structure DateTime where
  year : Nat
  month : Nat
  day : Nat
  hour : Nat
  minute : Nat
  second : Nat
  deriving DecidableEq, Repr

/-- Zero-pad a numeral to width `w` (the behaviour of `strftime`'s
zero-padded fields). -/
def zfill (n w : Nat) : String :=
  let s := toString n
  String.mk (List.replicate (w - s.length) '0') ++ s

/-- `datetime.now().strftime("%Y-%m-%d %H:%M:%S")`. -/
def formatTimestamp (t : DateTime) : String :=
  zfill t.year 4 ++ "-" ++ zfill t.month 2 ++ "-" ++ zfill t.day 2 ++ " " ++
  zfill t.hour 2 ++ ":" ++ zfill t.minute 2 ++ ":" ++ zfill t.second 2

/-- `save_conversation`: INSERT one row carrying the current timestamp;
the clock reading is passed explicitly. -/
def save_conversation (db : DB) (user_prompt : String)
    (base64_image : Option String) (bot_response : String)
    (now : DateTime) : DB :=
  { rows := db.rows ++
      [⟨db.nextId, user_prompt, base64_image, bot_response,
        formatTimestamp now⟩],
    nextId := db.nextId + 1 }

/-- Descending insertion by `id` (ties keep the later element first is
irrelevant: ids are unique). -/
def insertDesc (r : Row) : List Row → List Row
  | [] => [r]
  | x :: xs => if x.id ≤ r.id then r :: x :: xs else x :: insertDesc r xs

/-- Total sort by `id` descending, modelling SQL `ORDER BY id DESC`. -/
def sortDesc : List Row → List Row
  | [] => []
  | x :: xs => insertDesc x (sortDesc xs)

/-- The projection done by `SELECT user_prompt, base64_image,
bot_response, timestamp`. -/
def rowTuple (r : Row) : String × Option String × String × String :=
  (r.user_prompt, r.base64_image, r.bot_response, r.timestamp)

/-- `load_conversations`: SELECT the four data columns ORDER BY id DESC. -/
def load_conversations (db : DB) :
    List (String × Option String × String × String) :=
  (sortDesc db.rows).map rowTuple

/-! ## Startup: the API key check

`API_KEY = st.secrets["OPENAI_API_KEY"]` raises an uncaught exception when
the key is absent from the secret storage; otherwise `if not API_KEY`
stops the app with `st.error` when the value is falsy (the empty string).
Either error path halts the script before `main` serves anything. -/

/-- Outcome of the module-level startup code: `.error msg` means the app
halted showing `msg`; `.ok key` means `main` is reached with this key. -/
def startup (secrets : List (String × String)) : Except String String :=
  match secrets.lookup "OPENAI_API_KEY" with
  | none => Except.error "StreamlitSecretNotFoundError: OPENAI_API_KEY"
  | some v =>
      if v = "" then
        Except.error
          "OpenAI API key not found. Please set OPENAI_API_KEY in .env or environment variables."
      else Except.ok v

/-! ## The API call (`analyze_image_with_prompt`) -/

inductive ContentPart where
  | text (s : String)
  | image_url (url : String)
  deriving DecidableEq, Repr

structure ApiRequest where
  model : String
  role : String
  content : List ContentPart
  max_tokens : Nat
  deriving DecidableEq, Repr

/-- `encode_image_to_base64`: save the PIL image as PNG into a buffer and
base64-encode the bytes. -/
def encode_image_to_base64 (pil_image : PILImage) : String :=
  String.mk (b64encode (pngEncode pil_image))

/-- The content list built by `analyze_image_with_prompt`: the prompt as
a text part, then (if an image is present) a data-URL image part labelled
`image/png`. -/
def contentList (image : Option PILImage) (prompt : String) :
    List ContentPart :=
  [ContentPart.text prompt] ++
    match image with
    | some img =>
        [ContentPart.image_url
          ("data:image/png;base64," ++ encode_image_to_base64 img)]
    | none => []

/-- The chat-completion request issued by `analyze_image_with_prompt`. -/
def analyzeRequest (image : Option PILImage) (prompt : String) : ApiRequest :=
  ⟨"gpt-4o-mini", "user", contentList image prompt, 300⟩

/-- `analyze_image_with_prompt`: issue the request to the external API.
The external service is an oracle `api`; `.error e` models a raised
exception with text `e`, `.ok r` the returned message content. -/
def analyze_image_with_prompt (image : Option PILImage) (prompt : String)
    (api : ApiRequest → Except String String) : Except String String :=
  api (analyzeRequest image prompt)

/-! ## The Send action (`main`, lines 124-140) -/

/-- What one click of the Send button produced. -/
structure SendOutcome where
  db : DB
  /-- `st.warning` messages shown -/
  warnings : List String
  /-- the bot response written by `st.write`, when the submission was
  accepted -/
  displayed : Option String
  /-- the requests issued to the external API, in order -/
  apiRequests : List ApiRequest
  deriving Repr

/-- One click of Send: reject a blank prompt with no image, otherwise call
the API (catching any exception as `"Error: " ++ text`), display the
response and persist exactly this exchange. -/
def sendAction (db : DB) (prompt : String) (image_obj : Option PILImage)
    (api : ApiRequest → Except String String) (now : DateTime) :
    SendOutcome :=
  if pyStrip prompt = "" ∧ image_obj = none then
    { db := db, warnings := ["Please provide a prompt or an image."],
      displayed := none, apiRequests := [] }
  else
    let bot_response :=
      match analyze_image_with_prompt image_obj prompt api with
      | Except.ok r => r
      | Except.error e => "Error: " ++ e
    let base64_img := image_obj.map encode_image_to_base64
    { db := save_conversation db prompt base64_img bot_response now,
      warnings := [],
      displayed := some bot_response,
      apiRequests := [analyzeRequest image_obj prompt] }

/-! ## Upload handling (`main`, lines 114-121) -/

/-- `Image.open(uploaded_file)` with its try/except: on failure the error
is reported inline (`st.error`) and the image is dropped. -/
def processUpload (uploaded : Option (Except String PILImage)) :
    Option PILImage × List String :=
  match uploaded with
  | none => (none, [])
  | some (Except.ok img) => (some img, [])
  | some (Except.error e) => (none, ["Error reading image: " ++ e])

/-! ## History rendering (`main`, lines 142-162) -/

inductive RenderItem where
  | markdown (s : String)
  | image (img : PILImage)
  | text (s : String)
  deriving DecidableEq, Repr

/-- Lines 154-155: base64-decode the stored string and reopen it as an
image; `none` when either step fails. -/
def decodeStoredImage (s : String) : Option PILImage :=
  (b64decode s.toList).bind pngDecode

/-- Render one stored record in the sidebar (loop body, lines 147-160):
timestamp and prompt, then the decoded image when the stored blob is
non-empty and decodes (failures are silently skipped), then the response
and a separator. -/
def renderRecord (idx : Nat)
    (convo : String × Option String × String × String) : List RenderItem :=
  let (user_prompt, base64_img, bot_resp, timestamp) := convo
  [RenderItem.markdown ("**" ++ toString idx ++ ". Timestamp**: " ++ timestamp),
   RenderItem.markdown ("**User Prompt**: " ++ user_prompt)] ++
  (match base64_img with
   | some s =>
       if s = "" then []
       else
         match decodeStoredImage s with
         | some img => [RenderItem.image img]
         | none => []
   | none => []) ++
  [RenderItem.markdown ("**Bot Response**: " ++ bot_resp),
   RenderItem.text "---"]

/-- The sidebar "Load All" action: every stored record newest-first,
numbered from 1. -/
def renderHistory (db : DB) : List RenderItem :=
  let all_convos := load_conversations db
  if all_convos.isEmpty then [RenderItem.text "No conversations found."]
  else ((List.range all_convos.length).zip all_convos).flatMap
    fun p => renderRecord (p.1 + 1) p.2

/-! ## The table's reachable states

The only statements the application ever runs against the table are the
CREATE TABLE, the INSERT of `save_conversation` and the SELECT of
`load_conversations`. -/

inductive Op where
  | save (prompt : String) (img : Option String) (resp : String)
      (now : DateTime)
  | load
  deriving Repr

/-- Effect of one operation on the table. -/
def applyOp (db : DB) : Op → DB
  | Op.save p i r n => save_conversation db p i r n
  | Op.load => db

/-- Effect of a sequence of operations starting from a given state. -/
def applyOps (db : DB) (ops : List Op) : DB := ops.foldl applyOp db

/-- Row ids strictly increase along the stored list. -/
def IdsAscending (rows : List Row) : Prop :=
  rows.Pairwise fun a b => a.id < b.id

/-- Invariant of every reachable table state: ids ascend and stay below
the AUTOINCREMENT counter. -/
def DBInv (db : DB) : Prop :=
  IdsAscending db.rows ∧ ∀ r ∈ db.rows, r.id < db.nextId

/-! ## Helper lemmas -/

/-- The freshly created table satisfies the invariant. -/
theorem DBInv_initialDB : DBInv initialDB := by
  constructor
  · exact List.Pairwise.nil
  · intro r hr
    simp [initialDB] at hr

/-- `save_conversation` preserves the table invariant. -/
theorem DBInv_save (db : DB) (p : String) (i : Option String) (r : String)
    (n : DateTime) (h : DBInv db) : DBInv (save_conversation db p i r n) := by
  obtain ⟨hasc, hlt⟩ := h
  constructor
  · unfold IdsAscending at hasc ⊢
    rw [save_conversation, List.pairwise_append]
    refine ⟨hasc, List.pairwise_singleton _ _, ?_⟩
    intro a ha b hb
    simp at hb
    subst hb
    exact hlt a ha
  · intro x hx
    rw [save_conversation] at hx
    simp only [List.mem_append, List.mem_singleton] at hx
    rcases hx with hx | hx
    · have := hlt x hx
      simp [save_conversation]
      omega
    · subst hx
      simp [save_conversation]

/-- Every operation preserves the table invariant. -/
theorem DBInv_applyOp (db : DB) (op : Op) (h : DBInv db) :
    DBInv (applyOp db op) := by
  cases op with
  | save p i r n => exact DBInv_save db p i r n h
  | load => exact h

/-- Every reachable table state satisfies the invariant. -/
theorem DBInv_applyOps (db : DB) (ops : List Op) (h : DBInv db) :
    DBInv (applyOps db ops) := by
  induction ops generalizing db with
  | nil => exact h
  | cons op ops ih => exact ih (applyOp db op) (DBInv_applyOp db op h)

/-- Inserting an element smaller (by id) than everything in the list puts
it at the end. -/
theorem insertDesc_of_all_lt (r : Row) (l : List Row)
    (h : ∀ y ∈ l, r.id < y.id) : insertDesc r l = l ++ [r] := by
  induction l with
  | nil => rfl
  | cons x xs ih =>
      have hx : r.id < x.id := h x (by simp)
      rw [insertDesc, if_neg (by omega)]
      rw [ih fun y hy => h y (by simp [hy])]
      simp

/-- On a list with strictly ascending ids, `ORDER BY id DESC` is exactly
list reversal. -/
theorem sortDesc_eq_reverse (rows : List Row) (h : IdsAscending rows) :
    sortDesc rows = rows.reverse := by
  induction rows with
  | nil => rfl
  | cons r rs ih =>
      unfold IdsAscending at h
      rw [List.pairwise_cons] at h
      obtain ⟨hr, hrs⟩ := h
      rw [sortDesc, ih hrs,
        insertDesc_of_all_lt r rs.reverse
          (fun y hy => hr y (List.mem_reverse.mp hy))]
      simp

/-- `zfill` pads to at least the requested width. -/
theorem zfill_length (n w : Nat) : w ≤ (zfill n w).length := by
  unfold zfill
  rw [String.length_append]
  have h1 : (String.mk (List.replicate (w - (toString n).length) '0')).length
      = w - (toString n).length := by
    show (List.replicate (w - (toString n).length) '0').length
      = w - (toString n).length
    simp
  omega

/-- A formatted timestamp is never empty: it is at least 19 characters. -/
theorem formatTimestamp_length (t : DateTime) :
    19 ≤ (formatTimestamp t).length := by
  unfold formatTimestamp
  simp only [String.length_append]
  have h1 := zfill_length t.year 4
  have h2 := zfill_length t.month 2
  have h3 := zfill_length t.day 2
  have h4 := zfill_length t.hour 2
  have h5 := zfill_length t.minute 2
  have h6 := zfill_length t.second 2
  have hs : ("-" : String).length = 1 := rfl
  have hsp : (" " : String).length = 1 := rfl
  have hc : (":" : String).length = 1 := rfl
  omega

/-! ## Claims -/

/-- C1: for every submission accepted by the Send action (prompt non-blank
or image present), exactly one conversation record is inserted into the
conversations table — the new row list is the old one plus one row — for
every outcome of the external API call, normal return or exception alike. -/
theorem send_accepted_inserts_exactly_one (db : DB) (prompt : String)
    (image_obj : Option PILImage) (api : ApiRequest → Except String String)
    (now : DateTime) (h : pyStrip prompt ≠ "" ∨ image_obj ≠ none) :
    (sendAction db prompt image_obj api now).db.rows.length
        = db.rows.length + 1 ∧
    db.rows <+: (sendAction db prompt image_obj api now).db.rows := by
  have hcond : ¬(pyStrip prompt = "" ∧ image_obj = none) := by tauto
  rw [sendAction, if_neg hcond]
  constructor
  · simp [save_conversation]
  · exact List.prefix_append _ _

/-- Witness for C1 at a concrete accepted submission, once with a normal
API return and once with a raised exception. -/
theorem send_accepted_inserts_exactly_one_witness :
    (pyStrip "hi" ≠ "" ∨ (none : Option PILImage) ≠ none) ∧
    (sendAction initialDB "hi" none (fun _ => Except.ok "fine")
        ⟨2024, 1, 2, 3, 4, 5⟩).db.rows.length = initialDB.rows.length + 1 ∧
    (sendAction initialDB "hi" none (fun _ => Except.error "boom")
        ⟨2024, 1, 2, 3, 4, 5⟩).db.rows.length = initialDB.rows.length + 1 :=
  ⟨Or.inl (by decide),
   (send_accepted_inserts_exactly_one initialDB "hi" none
      (fun _ => Except.ok "fine") ⟨2024, 1, 2, 3, 4, 5⟩
      (Or.inl (by decide))).1,
   (send_accepted_inserts_exactly_one initialDB "hi" none
      (fun _ => Except.error "boom") ⟨2024, 1, 2, 3, 4, 5⟩
      (Or.inl (by decide))).1⟩

/-- C2: when the secret storage lacks the API key, the startup code halts
with a user-visible error (the uncaught secret-lookup exception) before
`main` is reached. -/
theorem missing_key_halts (secrets : List (String × String))
    (h : secrets.lookup "OPENAI_API_KEY" = none) :
    startup secrets
      = Except.error "StreamlitSecretNotFoundError: OPENAI_API_KEY" := by
  rw [startup, h]

/-- Witness for C2: an empty secret storage halts startup. -/
theorem missing_key_halts_witness :
    ([] : List (String × String)).lookup "OPENAI_API_KEY" = none ∧
    startup [] = Except.error "StreamlitSecretNotFoundError: OPENAI_API_KEY" :=
  ⟨rfl, missing_key_halts [] rfl⟩

/-- C3: in every state of the conversations table reachable by the
application's operations, `load_conversations` returns all stored records
in strict reverse-insertion order: the reversal of the stored row list. -/
theorem load_conversations_newest_first (ops : List Op) :
    load_conversations (applyOps initialDB ops)
      = ((applyOps initialDB ops).rows.reverse).map rowTuple := by
  rw [load_conversations,
    sortDesc_eq_reverse _ (DBInv_applyOps initialDB ops DBInv_initialDB).1]

/-- C4: for every valid image (whatever format it was uploaded in),
encoding with `encode_image_to_base64` and then base64-decoding and
reopening during history rendering reproduces the image without pixel
loss: same width, height and exact pixel bytes. -/
theorem image_roundtrip_lossless (img : PILImage) (h : ValidImage img) :
    decodeStoredImage (encode_image_to_base64 img)
      = some ⟨img.width, img.height, img.pixels, "PNG"⟩ := by
  show (b64decode (String.mk (b64encode (pngEncode img))).toList).bind pngDecode
      = some ⟨img.width, img.height, img.pixels, "PNG"⟩
  have htl : (String.mk (b64encode (pngEncode img))).toList
      = b64encode (pngEncode img) := rfl
  rw [htl, b64decode_b64encode (pngEncode img) (pngEncode_bytes_lt img)]
  exact pngDecode_pngEncode img h

/-- Witness for C4: a concrete 1x1 JPEG-sourced image round-trips. -/
theorem image_roundtrip_lossless_witness :
    ValidImage ⟨1, 1, [7, 8, 9], "JPEG"⟩ ∧
    decodeStoredImage (encode_image_to_base64 ⟨1, 1, [7, 8, 9], "JPEG"⟩)
      = some ⟨1, 1, [7, 8, 9], "PNG"⟩ :=
  ⟨by decide, image_roundtrip_lossless ⟨1, 1, [7, 8, 9], "JPEG"⟩ (by decide)⟩

/-- C5 counterexample: when the API raises an exception with text "boom",
the stored bot response and the displayed text are "Error: boom", not the
literal error text "boom" that the claim says is stored and displayed. -/
theorem error_text_not_stored_verbatim :
    (sendAction initialDB "hi" none (fun _ => Except.error "boom")
        ⟨2024, 1, 2, 3, 4, 5⟩).db.rows.map Row.bot_response ≠ ["boom"] ∧
    (sendAction initialDB "hi" none (fun _ => Except.error "boom")
        ⟨2024, 1, 2, 3, 4, 5⟩).displayed ≠ some "boom" := by
  decide

/-- C5 (amended): for every exception raised by the external API call
during an accepted submission, the exception is caught, its error text
prefixed with "Error: " is stored as the record's bot response and
displayed in place of a response, and exactly one API call is made (no
retry). -/
theorem error_text_stored_and_displayed (db : DB) (prompt : String)
    (image_obj : Option PILImage) (e : String) (now : DateTime)
    (h : pyStrip prompt ≠ "" ∨ image_obj ≠ none) :
    (sendAction db prompt image_obj (fun _ => Except.error e) now).db.rows.map
        Row.bot_response
      = db.rows.map Row.bot_response ++ ["Error: " ++ e] ∧
    (sendAction db prompt image_obj (fun _ => Except.error e) now).displayed
      = some ("Error: " ++ e) ∧
    (sendAction db prompt image_obj
        (fun _ => Except.error e) now).apiRequests.length = 1 := by
  have hcond : ¬(pyStrip prompt = "" ∧ image_obj = none) := by tauto
  rw [sendAction, if_neg hcond]
  refine ⟨?_, rfl, rfl⟩
  simp [save_conversation, analyze_image_with_prompt]

/-- Witness for C5's amended statement at a concrete failing call. -/
theorem error_text_stored_and_displayed_witness :
    (pyStrip "hi" ≠ "" ∨ (none : Option PILImage) ≠ none) ∧
    (sendAction initialDB "hi" none (fun _ => Except.error "boom")
        ⟨2024, 1, 2, 3, 4, 5⟩).displayed = some ("Error: " ++ "boom") :=
  ⟨Or.inl (by decide),
   (error_text_stored_and_displayed initialDB "hi" none "boom"
      ⟨2024, 1, 2, 3, 4, 5⟩ (Or.inl (by decide))).2.1⟩

/-- C6: a submission whose prompt strips to empty and which has no image
is rejected with the warning, before any API call, and nothing is
persisted: the outcome carries the unchanged table, the warning, no
displayed response and an empty API request list. -/
theorem blank_submission_rejected (db : DB) (prompt : String)
    (api : ApiRequest → Except String String) (now : DateTime)
    (h : pyStrip prompt = "") :
    sendAction db prompt none api now
      = { db := db, warnings := ["Please provide a prompt or an image."],
          displayed := none, apiRequests := [] } := by
  rw [sendAction, if_pos ⟨h, rfl⟩]

/-- Witness for C6 at a concrete whitespace-only prompt. -/
theorem blank_submission_rejected_witness :
    pyStrip "  \t " = "" ∧
    sendAction initialDB "  \t " none (fun _ => Except.ok "fine")
        ⟨2024, 1, 2, 3, 4, 5⟩
      = { db := initialDB,
          warnings := ["Please provide a prompt or an image."],
          displayed := none, apiRequests := [] } :=
  ⟨by decide,
   blank_submission_rejected initialDB "  \t " (fun _ => Except.ok "fine")
     ⟨2024, 1, 2, 3, 4, 5⟩ (by decide)⟩

/-- C7: every image-decoding failure is caught — a failed read of an
uploaded image is reported inline and yields no image, and a stored blob
that fails to decode during history rendering is silently skipped while
the record's timestamp, prompt, response and separator are still
rendered. -/
theorem image_decode_failures_caught :
    (∀ e, processUpload (some (Except.error e))
        = (none, ["Error reading image: " ++ e])) ∧
    (∀ idx p s resp ts, decodeStoredImage s = none →
        renderRecord idx (p, some s, resp, ts)
          = [RenderItem.markdown
               ("**" ++ toString idx ++ ". Timestamp**: " ++ ts),
             RenderItem.markdown ("**User Prompt**: " ++ p),
             RenderItem.markdown ("**Bot Response**: " ++ resp),
             RenderItem.text "---"]) := by
  constructor
  · intro e
    rfl
  · intro idx p s resp ts h
    rw [renderRecord]
    by_cases hs : s = ""
    · rw [if_pos hs]
      rfl
    · rw [if_neg hs, h]
      rfl

/-- Witness for C7 on a concrete undecodable stored blob. -/
theorem image_decode_failures_caught_witness :
    decodeStoredImage "!" = none ∧
    renderRecord 1 ("p", some "!", "r", "t")
      = [RenderItem.markdown ("**" ++ toString 1 ++ ". Timestamp**: " ++ "t"),
         RenderItem.markdown ("**User Prompt**: " ++ "p"),
         RenderItem.markdown ("**Bot Response**: " ++ "r"),
         RenderItem.text "---"] :=
  ⟨by decide, image_decode_failures_caught.2 1 "p" "!" "r" "t" (by decide)⟩

/-- C8: the conversations table is append-only — every operation leaves
the old rows as a prefix, the only write is the single INSERT of
`save_conversation`, every inserted row carries a (never-empty) formatted
timestamp, and in every reachable state the rows are ordered by the
auto-incrementing id. -/
theorem conversations_append_only :
    (∀ db op, db.rows <+: (applyOp db op).rows) ∧
    (∀ db p i r n, (save_conversation db p i r n).rows
        = db.rows ++ [⟨db.nextId, p, i, r, formatTimestamp n⟩]) ∧
    (∀ n : DateTime, 19 ≤ (formatTimestamp n).length) ∧
    (∀ ops, IdsAscending (applyOps initialDB ops).rows) := by
  refine ⟨?_, ?_, ?_, ?_⟩
  · intro db op
    cases op with
    | save p i r n => exact List.prefix_append _ _
    | load => exact List.prefix_rfl
  · intro db p i r n
    rfl
  · exact formatTimestamp_length
  · intro ops
    exact (DBInv_applyOps initialDB ops DBInv_initialDB).1

/-- C9: `encode_image_to_base64` re-encodes every image as PNG before it
is stored or sent — the encoding ignores the original upload format, the
API payload labels the image part with the `image/png` media type, the
row persisted by an accepted submission stores exactly this encoding, and
the stored blob decodes as a PNG. -/
theorem image_reencoded_as_png (img : PILImage) (fmt prompt : String)
    (h : ValidImage img) :
    (encode_image_to_base64 { img with format := fmt }
        = encode_image_to_base64 img) ∧
    (contentList (some img) prompt
        = [ContentPart.text prompt,
           ContentPart.image_url
             ("data:image/png;base64," ++ encode_image_to_base64 img)]) ∧
    (∀ db api now,
        (sendAction db prompt (some img) api now).db.rows.map
            Row.base64_image
          = db.rows.map Row.base64_image
              ++ [some (encode_image_to_base64 img)]) ∧
    ((decodeStoredImage (encode_image_to_base64 img)).map PILImage.format
        = some "PNG") := by
  refine ⟨rfl, rfl, ?_, ?_⟩
  · intro db api now
    have hcond : ¬(pyStrip prompt = "" ∧ (some img : Option PILImage) = none) := by
      simp
    rw [sendAction, if_neg hcond]
    simp [save_conversation]
  · rw [show decodeStoredImage (encode_image_to_base64 img)
        = some ⟨img.width, img.height, img.pixels, "PNG"⟩ from by
      show (b64decode (String.mk
          (b64encode (pngEncode img))).toList).bind pngDecode = _
      rw [show (String.mk (b64encode (pngEncode img))).toList
          = b64encode (pngEncode img) from rfl,
        b64decode_b64encode (pngEncode img) (pngEncode_bytes_lt img)]
      exact pngDecode_pngEncode img h]
    rfl

/-- Witness for C9 at a concrete JPEG-sourced image. -/
theorem image_reencoded_as_png_witness :
    ValidImage ⟨1, 1, [7, 8, 9], "JPEG"⟩ ∧
    ((decodeStoredImage
        (encode_image_to_base64 ⟨1, 1, [7, 8, 9], "JPEG"⟩)).map
          PILImage.format = some "PNG") :=
  ⟨by decide,
   (image_reencoded_as_png ⟨1, 1, [7, 8, 9], "JPEG"⟩ "PNG" "describe"
      (by decide)).2.2.2⟩

/-- C10: a submission with a blank prompt but an image present is
accepted — exactly one API request is made, carrying the unmodified
(blank) prompt as the text part plus the PNG-labelled image part, and one
record is persisted. -/
theorem blank_prompt_with_image_accepted (db : DB) (prompt : String)
    (img : PILImage) (api : ApiRequest → Except String String)
    (now : DateTime) (h : pyStrip prompt = "") :
    (sendAction db prompt (some img) api now).apiRequests
      = [⟨"gpt-4o-mini", "user",
          [ContentPart.text prompt,
           ContentPart.image_url
             ("data:image/png;base64," ++ encode_image_to_base64 img)],
          300⟩] ∧
    (sendAction db prompt (some img) api now).db.rows.length
      = db.rows.length + 1 := by
  have hcond : ¬(pyStrip prompt = "" ∧ (some img : Option PILImage) = none) := by
    simp
  rw [sendAction, if_neg hcond]
  constructor
  · rfl
  · simp [save_conversation]

/-- Witness for C10 at a concrete empty prompt with an image. -/
theorem blank_prompt_with_image_accepted_witness :
    pyStrip "" = "" ∧
    (sendAction initialDB "" (some ⟨1, 1, [7, 8, 9], "JPEG"⟩)
        (fun _ => Except.ok "a cat") ⟨2024, 1, 2, 3, 4, 5⟩).db.rows.length
      = initialDB.rows.length + 1 :=
  ⟨by decide,
   (blank_prompt_with_image_accepted initialDB "" ⟨1, 1, [7, 8, 9], "JPEG"⟩
      (fun _ => Except.ok "a cat") ⟨2024, 1, 2, 3, 4, 5⟩ (by decide)).2⟩

end ChatBot
